import Mathlib

/-!
# Verification of the Time-tracker goal-evaluation engine

Shallow embedding of the pure computation core of the Time-tracker
application: the calendar/period utilities, the time-range and check
aggregators, the streak calculator and the goal evaluator.

Modelling conventions (documented once, used throughout):

* Instants are `Int` milliseconds since the Unix epoch (JS `Date.getTime()`).
* The JS `Date` local-time behaviour is modelled with a fixed timezone
  offset `tz` (milliseconds): the local clock reading of an instant `t`
  is `t + tz`.  Daylight-saving transitions are outside the model, so
  `setDate(getDate() ± k)` is exactly a shift by `k * 86400000` ms.
* Calendar-date strings `"YYYY-MM-DD"` are represented by their day
  number (days since 1970-01-01); the representation is a bijection, and
  `toISOString().split('T')[0]` of an instant `t` is the day number
  `t / 86400000` rounded toward minus infinity (the UTC calendar day).
* `Math.floor(x / d)` for a positive divisor `d` is `Int` division `/`
  (Euclidean division, which coincides with floor division when the
  divisor is positive).  The single division whose divisor may be
  negative (`Math.round` of a ratio against a user-supplied target) uses
  `Int.fdiv`, which is floor division for every divisor sign.
* JS objects used as string-keyed maps are association lists
  `List (String × α)` (`Object.keys` order is insertion order); the
  boolean `checks` object of a CHECK activity is modelled by its
  characteristic function `Int → Bool` on day numbers (the source treats
  a missing key and a `false` value identically).
* A JS `switch`/ternary dispatch on strings is an `if`-chain.
* The arithmetic on JS numbers performed here stays on integers (and on
  exact ratios of integers inside `Math.round`), where double-precision
  evaluation is exact; `NaN` and the infinities produced by a division
  by zero are modelled explicitly by the `JSNum` type.
-/

namespace TimeTracker

def msPerDay : Int := 86400000

def msPerMinute : Int := 60000

/-- The UTC calendar day of an instant: `toISOString().split('T')[0]`.
Source: `getISODate` (main.js lines 56-59 and the goal engine). -/
def getISODate (t : Int) : Int := t / msPerDay

/-- The local calendar day of an instant under fixed offset `tz`. -/
def localDayOf (tz t : Int) : Int := (t + tz) / msPerDay

/-- The instant of local midnight of local day `n`. -/
def localMidnight (tz n : Int) : Int := n * msPerDay - tz

/-- `getDayStart`: `setHours(0,0,0,0)` of the instant's local day. -/
def getDayStart (tz t : Int) : Int := localMidnight tz (localDayOf tz t)

/-- `getDayEnd`: `setHours(23,59,59,999)` of the instant's local day. -/
def getDayEnd (tz t : Int) : Int := getDayStart tz t + (msPerDay - 1)

/-- JS `getDay()` of a local day number: 0 = Sunday … 6 = Saturday.
Day 0 (1970-01-01) was a Thursday, hence the `+ 4`. -/
def dayOfWeek (n : Int) : Int := (n + 4) % 7

/-- `getWeekStart`: `diff = getDate() - day + (day === 0 ? -6 : 1)`,
`setDate(diff)`, `setHours(0,0,0,0)`.  `setDate` normalises out-of-range
day-of-month values, so the composite is a plain day shift. -/
def getWeekStart (tz t : Int) : Int :=
  let n := localDayOf tz t
  let day := dayOfWeek n
  let diff := if day = 0 then n - 6 else n - day + 1
  localMidnight tz diff

/-- `getWeekEnd`: week start, `setDate(+6)`, `setHours(23,59,59,999)`. -/
def getWeekEnd (tz t : Int) : Int :=
  getWeekStart tz t + 6 * msPerDay + (msPerDay - 1)

/-- Day number of the (proleptic Gregorian) civil date `(y, m, d)` with
`m ∈ 1..12`; the standard `days_from_civil` computation, with the era
taken by floor division so that it is valid for every year. -/
def daysFromCivilYMD (y m d : Int) : Int :=
  let y2 := if m ≤ 2 then y - 1 else y
  let era := y2 / 400
  let yoe := y2 - era * 400
  let mp := if 2 < m then m - 3 else m + 9
  let doy := (153 * mp + 2) / 5 + d - 1
  let doe := yoe * 365 + yoe / 4 - yoe / 100 + doy
  era * 146097 + doe - 719468

/-- `new Date(y, monthIndex, d, 0, 0, 0, 0)` in local time: JS normalises
an out-of-range `monthIndex` into the year and an out-of-range `d`
(e.g. day `0`) into the month. -/
def jsLocalDate (tz y mIdx d : Int) : Int :=
  let y2 := y + mIdx / 12
  let m2 := mIdx % 12
  localMidnight tz (daysFromCivilYMD y2 (m2 + 1) 1 + (d - 1))

/-- Civil date `(y, m, d)` of a day number; standard `civil_from_days`. -/
def civilFromDays (z0 : Int) : Int × Int × Int :=
  let z := z0 + 719468
  let era := z / 146097
  let doe := z - era * 146097
  let yoe := (doe - doe / 1460 + doe / 36524 - doe / 146096) / 365
  let y := yoe + era * 400
  let doy := doe - (365 * yoe + yoe / 4 - yoe / 100)
  let mp := (5 * doy + 2) / 153
  let d := doy - (153 * mp + 2) / 5 + 1
  let m := if mp < 10 then mp + 3 else mp - 9
  (if m ≤ 2 then y + 1 else y, m, d)

/-- JS `getFullYear()` (local). -/
def jsGetFullYear (tz t : Int) : Int := (civilFromDays (localDayOf tz t)).1

/-- JS `getMonth()` (local, 0-based). -/
def jsGetMonth (tz t : Int) : Int := (civilFromDays (localDayOf tz t)).2.1 - 1

/-- `getMonthStart`: `new Date(y, m, 1, 0, 0, 0, 0)`. -/
def getMonthStart (tz t : Int) : Int :=
  jsLocalDate tz (jsGetFullYear tz t) (jsGetMonth tz t) 1

/-- `getMonthEnd`: `new Date(y, m + 1, 0, 23, 59, 59, 999)`. -/
def getMonthEnd (tz t : Int) : Int :=
  jsLocalDate tz (jsGetFullYear tz t) (jsGetMonth tz t + 1) 0 + (msPerDay - 1)

/-- `getYearStart`: `new Date(y, 0, 1, 0, 0, 0, 0)`. -/
def getYearStart (tz t : Int) : Int :=
  jsLocalDate tz (jsGetFullYear tz t) 0 1

/-- `getYearEnd`: `new Date(y, 11, 31, 23, 59, 59, 999)`. -/
def getYearEnd (tz t : Int) : Int :=
  jsLocalDate tz (jsGetFullYear tz t) 11 31 + (msPerDay - 1)

/-- `getPeriodRange(period, date)`: switch on the period string with the
day range as the default branch. -/
def getPeriodRange (tz : Int) (period : String) (t : Int) : Int × Int :=
  if period = "day" then (getDayStart tz t, getDayEnd tz t)
  else if period = "week" then (getWeekStart tz t, getWeekEnd tz t)
  else if period = "month" then (getMonthStart tz t, getMonthEnd tz t)
  else if period = "year" then (getYearStart tz t, getYearEnd tz t)
  else (getDayStart tz t, getDayEnd tz t)

/-- One recorded interval of a TIME activity; `end = null` (`none`)
means the timer is still running. -/
structure TimeEntry where
  start : Int
  «end» : Option Int

/-- An activity record.  `entries` is used by TIME activities, `checks`
(characteristic function on day numbers) by CHECK activities; an absent
container behaves exactly like an empty one in every aggregator. -/
structure Activity where
  type : String
  entries : List TimeEntry
  checks : Int → Bool

/-- The activities snapshot: a string-keyed object, insertion-ordered. -/
abbrev Activities := List (String × Activity)

/-- `calculateTimeInRange(entries, rangeStart, rangeEnd)` (main.js lines
170-189): `reduce` over the entries, skipping open entries and entries
completely outside the range, accumulating the clipped overlap. -/
def calculateTimeInRange (entries : List TimeEntry) (rangeStart rangeEnd : Int) : Int :=
  entries.foldl (fun total entry =>
    match entry.«end» with
    | none => total
    | some entryEnd =>
      if entryEnd < rangeStart || entry.start > rangeEnd then total
      else total + (min entryEnd rangeEnd - max entry.start rangeStart)) 0

/-- `calculateTimeInRange(activities, activityIds, rangeStart, rangeEnd)`
(goal engine lines 153-183): the per-activity variant; an empty id list
means all activities, non-time activities are skipped, and the inner
per-entry loop is the same accumulation as the entry-level function. -/
def calculateTimeInRangeActs (activities : Activities) (activityIds : List String)
    (rangeStart rangeEnd : Int) : Int :=
  let idsToCheck := if activityIds.length > 0 then activityIds else activities.map (·.1)
  idsToCheck.foldl (fun totalMs id =>
    match activities.lookup id with
    | none => totalMs
    | some activity =>
      if activity.type = "time" then
        activity.entries.foldl (fun total entry =>
          match entry.«end» with
          | none => total
          | some entryEnd =>
            if entryEnd < rangeStart || entry.start > rangeEnd then total
            else total + (min entryEnd rangeEnd - max entry.start rangeStart)) totalMs
      else totalMs) 0

/-- Result of the check aggregator of main.js (lines 198-215). -/
structure CheckCount where
  checked : Nat
  total : Nat
deriving DecidableEq, Repr

/-- The day-by-day loop of `countChecksInRange`: `while (current <=
endDate)`, look the UTC date string of `current` up in the checks map,
step `current` one (local) day forward.  The loop is driven by fuel;
`chkFuel` below supplies exactly the number of iterations the `while`
condition admits, so the two agree. -/
def countChecksLoop (checks : Int → Bool) (endDate : Int) : Nat → Int → CheckCount
  | 0, _ => ⟨0, 0⟩
  | fuel + 1, current =>
    if current ≤ endDate then
      let rest := countChecksLoop checks endDate fuel (current + msPerDay)
      ⟨(if checks (getISODate current) then rest.checked + 1 else rest.checked),
       rest.total + 1⟩
    else ⟨0, 0⟩

/-- Number of iterations of the day loop from `startDate` to `endDate`
inclusive (0 when the range is empty). -/
def chkFuel (startDate endDate : Int) : Nat :=
  ((endDate - startDate) / msPerDay + 1).toNat

/-- `countChecksInRange(checks, startDate, endDate)` (main.js lines
198-215), returning `{ checked, total }`. -/
def countChecksInRange (checks : Int → Bool) (startDate endDate : Int) : CheckCount :=
  countChecksLoop checks endDate (chkFuel startDate endDate) startDate

/-- `countChecksInRange(activities, activityIds, startDate, endDate)`
(goal engine lines 193-215): per-activity variant, empty id list means
all CHECK activities, and per qualifying activity the same day loop as
the entry-level aggregator, summing only the checked count. -/
def countChecksInRangeActs (activities : Activities) (activityIds : List String)
    (startDate endDate : Int) : Nat :=
  let idsToCheck := if activityIds.length > 0 then activityIds
    else (activities.filter (fun p => p.2.type == "check")).map (·.1)
  idsToCheck.foldl (fun count id =>
    match activities.lookup id with
    | none => count
    | some activity =>
      if activity.type = "check" then
        count + (countChecksLoop activity.checks endDate (chkFuel startDate endDate) startDate).checked
      else count) 0

/-- `dayHasActivity(activities, activityIds, dateStr, streakType)` (goal
engine lines 229-266).  `new Date(dateStr)` parses a date-only string as
UTC midnight of that day, hence `dateStr * msPerDay`. -/
def dayHasActivity (tz : Int) (activities : Activities) (activityIds : List String)
    (dateStr : Int) (streakType : String) : Bool :=
  let date := dateStr * msPerDay
  let dayStart := getDayStart tz date
  let dayEnd := getDayEnd tz date
  let idsToCheck := if activityIds.length > 0 then activityIds else activities.map (·.1)
  if streakType = "time" then
    idsToCheck.any fun id =>
      match activities.lookup id with
      | none => false
      | some activity =>
        if activity.type = "time" then
          activity.entries.any fun entry =>
            match entry.«end» with
            | none => false
            | some entryEnd => decide (entryEnd ≥ dayStart) && decide (entry.start ≤ dayEnd)
        else false
  else
    idsToCheck.any fun id =>
      match activities.lookup id with
      | none => false
      | some activity =>
        if activity.type = "check" then activity.checks dateStr else false

/-- The backward walk of `calculateStreak` (goal engine lines 275-307),
as a function of the day-qualification predicate `q` (`q off` says
whether the day `off` days before today qualifies).  State: accumulated
`streak` and the offset of `current` from today.  The walk: count while
days qualify; on the first failure with `streak = 0` try the grace day
(`continue` skips the bound check for that iteration); stop once
`daysDiff = offset > 365`.  `daysDiff = Math.floor((today - current) /
86400000)` is exactly the offset because `setDate` preserves the time of
day.  The recursion is fuel-driven; `calculateStreak_terminates` (C5)
proves the fuel used below is never exhausted. -/
def streakLoop (q : Nat → Bool) : Nat → Nat → Nat → Option Nat
  | 0, _, _ => none
  | fuel + 1, streak, offset =>
    if q offset then
      let streak2 := streak + 1
      let offset2 := offset + 1
      if offset2 > 365 then some streak2
      else streakLoop q fuel streak2 offset2
    else
      if streak = 0 then
        if q (offset + 1) then
          streakLoop q fuel 1 (offset + 2)
        else some streak
      else some streak

/-- `calculateStreak(activities, activityIds, streakType)`: walk backward
from `today`, one local day at a time; the visited date string is the
UTC day of the visited instant. -/
def calculateStreak (tz today : Int) (activities : Activities)
    (activityIds : List String) (streakType : String) : Nat :=
  (streakLoop
    (fun off => dayHasActivity tz activities activityIds
      (getISODate (today - (off : Int) * msPerDay)) streakType)
    368 0 0).getD 0

/-- A JS number as produced by the percentage computation: an integer,
`NaN`, or a signed infinity. -/
inductive JSNum where
  | nan
  | posInf
  | negInf
  | fin (v : Int)
deriving DecidableEq, Repr

/-- `Math.round((current / target) * 100)`.  For `target = 0` the JS
division produces `NaN` (0/0) or a signed infinity, which `Math.round`
passes through.  Otherwise the ratio is the exact rational
`current/target`, and `Math.round x = ⌊x + 1/2⌋`, so the result is
`⌊(200c + t) / (2t)⌋`, floor division for either sign of `t`
(`jsRound100Div_eq_floor` below proves this equals the textbook
formula). -/
def jsRound100Div (c t : Int) : JSNum :=
  if t = 0 then
    if c = 0 then .nan else if 0 < c then .posInf else .negInf
  else .fin ((200 * c + t).fdiv (2 * t))

/-- `Math.min(100, x)`: `NaN` is contagious, `min(100, +∞) = 100`,
`min(100, -∞) = -∞`. -/
def jsMin100 : JSNum → JSNum
  | .nan => .nan
  | .posInf => .fin 100
  | .negInf => .negInf
  | .fin v => .fin (min 100 v)

/-- `Math.min(100, Math.round((current / target) * 100))`, the percentage
expression shared by the three goal evaluators. -/
def progressPct (c t : Int) : JSNum := jsMin100 (jsRound100Div c t)

/-- A goal's `config` object (the fields used by the evaluators). -/
structure GoalConfig where
  activityId : Option String
  targetMinutes : Int
  targetCount : Int
  targetDays : Int
  period : String

/-- A goal record. -/
structure Goal where
  type : String
  config : GoalConfig

/-- The evaluation result record. -/
structure EvalResult where
  achieved : Bool
  current : Int
  target : Int
  progressPercentage : JSNum
  unit : String
deriving DecidableEq, Repr

/-- `evaluateTimeGoal(goal, activities)` (goal engine lines 319-344);
`now` is the implicit `new Date()` of `getPeriodRange(config.period)`. -/
def evaluateTimeGoal (tz now : Int) (goal : Goal) (activities : Activities) : EvalResult :=
  let config := goal.config
  let range := getPeriodRange tz config.period now
  let activityIds := match config.activityId with
    | some id => [id]
    | none => []
  let totalMs := calculateTimeInRangeActs activities activityIds range.1 range.2
  let currentMinutes := totalMs / msPerMinute
  let targetMinutes := config.targetMinutes
  { achieved := decide (currentMinutes ≥ targetMinutes)
    current := currentMinutes
    target := targetMinutes
    progressPercentage := progressPct currentMinutes targetMinutes
    unit := "minutes" }

/-- `evaluateCountGoal(goal, activities)` (goal engine lines 352-370). -/
def evaluateCountGoal (tz now : Int) (goal : Goal) (activities : Activities) : EvalResult :=
  let config := goal.config
  let range := getPeriodRange tz config.period now
  let activityIds := match config.activityId with
    | some id => [id]
    | none => []
  let currentCount := (countChecksInRangeActs activities activityIds range.1 range.2 : Int)
  let targetCount := config.targetCount
  { achieved := decide (currentCount ≥ targetCount)
    current := currentCount
    target := targetCount
    progressPercentage := progressPct currentCount targetCount
    unit := "completions" }

/-- `evaluateStreakGoal(goal, activities)` (goal engine lines 378-399):
the streak type is the referenced activity's own type, defaulting to
`"check"` when the activity is missing or no id is configured. -/
def evaluateStreakGoal (tz now : Int) (goal : Goal) (activities : Activities) : EvalResult :=
  let config := goal.config
  let activityIds := match config.activityId with
    | some id => [id]
    | none => []
  let streakType := match config.activityId with
    | some id =>
      match activities.lookup id with
      | some activity => activity.type
      | none => "check"
    | none => "check"
  let currentStreak := (calculateStreak tz now activities activityIds streakType : Int)
  let targetStreak := config.targetDays
  { achieved := decide (currentStreak ≥ targetStreak)
    current := currentStreak
    target := targetStreak
    progressPercentage := progressPct currentStreak targetStreak
    unit := "days" }

/-- `evaluateGoal(goal, activities)` (goal engine lines 407-424): switch
on `goal.type` with the neutral record as the default branch.  The model
is a total function: no branch can raise. -/
def evaluateGoal (tz now : Int) (goal : Goal) (activities : Activities) : EvalResult :=
  if goal.type = "time" then evaluateTimeGoal tz now goal activities
  else if goal.type = "count" then evaluateCountGoal tz now goal activities
  else if goal.type = "streak" then evaluateStreakGoal tz now goal activities
  else
    { achieved := false
      current := 0
      target := 0
      progressPercentage := .fin 0
      unit := "unknown" }

/-! ## Spec-side definitions

Reformulations following the specification's words, used to state the
claims; each is compared against the source-translated function above. -/

/-- Spec §4.2: a closed entry is kept unless `entry.end < rangeStart OR
entry.start > rangeEnd`; open entries are excluded. -/
def entryKept (rangeStart rangeEnd : Int) (e : TimeEntry) : Bool :=
  match e.«end» with
  | none => false
  | some en => !(decide (en < rangeStart) || decide (e.start > rangeEnd))

/-- Spec §4.2: the contribution of one entry,
`min(entry.end, rangeEnd) - max(entry.start, rangeStart)` (0 if open). -/
def entryOverlap (rangeStart rangeEnd : Int) (e : TimeEntry) : Int :=
  match e.«end» with
  | none => 0
  | some en => min en rangeEnd - max e.start rangeStart

/-- Spec §4.2: `sumOverlap` as a sum over the kept entries. -/
def sumOverlapSpec (entries : List TimeEntry) (rangeStart rangeEnd : Int) : Int :=
  ((entries.filter (entryKept rangeStart rangeEnd)).map (entryOverlap rangeStart rangeEnd)).sum

/-- Data-model invariant of §3: a closed entry has `end >= start`. -/
def entryWF (e : TimeEntry) : Bool :=
  match e.«end» with
  | none => true
  | some en => decide (e.start ≤ en)

/-- Spec §4.3: day-by-day count over the inclusive range, with the
date-stringification used for the map lookup made an explicit parameter
`dayKey` (the claim says the local calendar date, the code uses the UTC
one; the counterexample below separates the two). -/
def countChecksSpecKeyed (dayKey : Int → Int) (checks : Int → Bool)
    (startDate endDate : Int) : CheckCount :=
  let n := chkFuel startDate endDate
  ⟨(List.range n).countP (fun i : Nat => checks (dayKey (startDate + (i : Int) * msPerDay))), n⟩

/-- Length of the run of consecutive qualifying day offsets starting at
`start` (walking away from today), capped at `bound` days. -/
def runLenOff (q : Nat → Bool) (start : Nat) : Nat → Nat
  | 0 => 0
  | bound + 1 => if q start then runLenOff q (start + 1) bound + 1 else 0

/-! ## Concrete fixtures for the spec's worked examples -/

/-- A TIME activity with the given entries. -/
def mkTimeActivity (entries : List TimeEntry) : Activity :=
  ⟨"time", entries, fun _ => false⟩

/-- A CHECK activity with the given checks map. -/
def mkCheckActivity (checks : Int → Bool) : Activity :=
  ⟨"check", [], checks⟩

/-- A TIME goal on activity `"a"` with daily period and the given
`targetMinutes`. -/
def timeGoalFix (target : Int) : Goal :=
  ⟨"time", ⟨some "a", target, 0, 0, "day"⟩⟩

/-- An activities snapshot holding one TIME activity `"a"` with a single
entry. -/
def oneTimeActs (e : TimeEntry) : Activities :=
  [("a", mkTimeActivity [e])]

/-- A snapshot with one CHECK activity `"a"` checked on days -366..-1
(366 consecutive days ending yesterday when today is day 0). -/
def checkActs366 : Activities :=
  [("a", mkCheckActivity (fun d => decide (-366 ≤ d) && decide (d ≤ -1)))]

/-! ## Helper lemmas -/

/-- The entry-level accumulation loop computes the spec-side filtered
overlap sum, for any accumulator. -/
theorem calcTime_foldl (rangeStart rangeEnd : Int) (entries : List TimeEntry) :
    ∀ acc : Int,
      entries.foldl (fun total entry =>
        match entry.«end» with
        | none => total
        | some entryEnd =>
          if entryEnd < rangeStart || entry.start > rangeEnd then total
          else total + (min entryEnd rangeEnd - max entry.start rangeStart)) acc
      = acc + sumOverlapSpec entries rangeStart rangeEnd := by
  induction entries with
  | nil => intro acc; simp [sumOverlapSpec]
  | cons e es ih =>
    intro acc
    rcases e with ⟨s, en⟩
    rw [List.foldl_cons]
    cases en with
    | none =>
      dsimp only
      rw [ih acc]
      simp [sumOverlapSpec, entryKept]
    | some v =>
      dsimp only
      by_cases hb : (decide (v < rangeStart) || decide (s > rangeEnd)) = true
      · rw [if_pos hb, ih acc]
        simp only [sumOverlapSpec, entryKept, List.filter_cons]
        simp [hb]
      · have hb2 : (decide (v < rangeStart) || decide (s > rangeEnd)) = false := by
          simpa using hb
        rw [if_neg (by simp [hb2]), ih]
        simp only [sumOverlapSpec, entryKept, List.filter_cons]
        simp only [hb2, Bool.not_false, if_pos]
        simp [entryOverlap]
        omega

/-- Key–value lookup in an association list finds a stored pair. -/
theorem lookup_mem (l : Activities) (id : String) (a : Activity)
    (h : l.lookup id = some a) : ∃ k, (k, a) ∈ l := by
  induction l with
  | nil => simp [List.lookup] at h
  | cons p ps ih =>
    rcases p with ⟨k, b⟩
    rw [List.lookup] at h
    by_cases hk : (id == k) = true
    · simp only [hk] at h
      exact ⟨k, by simp [Option.some_inj.mp h]⟩
    · have hk2 : (id == k) = false := by simpa using hk
      simp only [hk2] at h
      obtain ⟨k3, hk3⟩ := ih h
      exact ⟨k3, List.mem_cons_of_mem _ hk3⟩

/-- With a proper range and well-formed entries, every step of the
entry-level accumulation can only increase the accumulator. -/
theorem calcTime_foldl_acc_le (rangeStart rangeEnd : Int) (hr : rangeStart ≤ rangeEnd) :
    ∀ entries : List TimeEntry, entries.all entryWF = true →
      ∀ acc : Int,
        acc ≤ entries.foldl (fun total entry =>
          match entry.«end» with
          | none => total
          | some entryEnd =>
            if entryEnd < rangeStart || entry.start > rangeEnd then total
            else total + (min entryEnd rangeEnd - max entry.start rangeStart)) acc := by
  intro entries
  induction entries with
  | nil => intro _ acc; simp
  | cons e es ih =>
    intro hwf acc
    rw [List.all_cons, Bool.and_eq_true] at hwf
    rw [List.foldl_cons]
    rcases e with ⟨s, en⟩
    cases en with
    | none => exact ih hwf.2 acc
    | some v =>
      dsimp only
      have hs : s ≤ v := by
        have := hwf.1
        simp [entryWF] at this
        exact this
      by_cases hb : (decide (v < rangeStart) || decide (s > rangeEnd)) = true
      · rw [if_pos hb]; exact ih hwf.2 acc
      · have hb2 : ¬(v < rangeStart) ∧ ¬(s > rangeEnd) := by simpa using hb
        rw [if_neg (by simpa using hb)]
        have hterm : 0 ≤ min v rangeEnd - max s rangeStart := by omega
        calc acc ≤ acc + (min v rangeEnd - max s rangeStart) := by omega
          _ ≤ _ := ih hwf.2 _

/-- With a proper range and well-formed activity data, the per-activity
accumulation can only increase the accumulator. -/
theorem calcTimeActs_foldl_acc_le (activities : Activities) (rangeStart rangeEnd : Int)
    (hr : rangeStart ≤ rangeEnd)
    (hwfa : activities.all (fun p => p.2.entries.all entryWF) = true) :
    ∀ ids : List String, ∀ acc : Int,
      acc ≤ ids.foldl (fun totalMs id =>
        match activities.lookup id with
        | none => totalMs
        | some activity =>
          if activity.type = "time" then
            activity.entries.foldl (fun total entry =>
              match entry.«end» with
              | none => total
              | some entryEnd =>
                if entryEnd < rangeStart || entry.start > rangeEnd then total
                else total + (min entryEnd rangeEnd - max entry.start rangeStart)) totalMs
          else totalMs) acc := by
  intro ids
  induction ids with
  | nil => intro acc; simp
  | cons id rest ih =>
    intro acc
    rw [List.foldl_cons]
    cases hl : activities.lookup id with
    | none => exact ih acc
    | some a =>
      dsimp only
      by_cases ht : a.type = "time"
      · rw [if_pos ht]
        obtain ⟨k, hk⟩ := lookup_mem activities id a hl
        have hwf : a.entries.all entryWF = true := by
          have := List.all_eq_true.mp hwfa _ hk
          simpa using this
        exact le_trans (calcTime_foldl_acc_le rangeStart rangeEnd hr a.entries hwf acc) (ih _)
      · rw [if_neg ht]; exact ih acc

/-! ## C2: overlap sum correctness -/

/-- C2: `calculateTimeInRange` over a list of entries and a closed range
equals the sum, over every closed entry not skipped by the test
`entry.end < rangeStart OR entry.start > rangeEnd`, of
`min(entry.end, rangeEnd) - max(entry.start, rangeStart)`, with open
entries contributing 0; and in particular, for the single entry
`{start:10, end:20}`: range `[15,25]` gives 5, range `[0,5]` gives 0,
and any range fully containing the entry gives 10. -/
theorem calculateTimeInRange_eq_sumOverlapSpec (entries : List TimeEntry)
    (rangeStart rangeEnd : Int) :
    calculateTimeInRange entries rangeStart rangeEnd
        = sumOverlapSpec entries rangeStart rangeEnd ∧
    calculateTimeInRange [⟨10, some 20⟩] 15 25 = 5 ∧
    calculateTimeInRange [⟨10, some 20⟩] 0 5 = 0 ∧
    (rangeStart ≤ 10 → 20 ≤ rangeEnd →
      calculateTimeInRange [⟨10, some 20⟩] rangeStart rangeEnd = 10) := by
  refine ⟨?_, by decide, by decide, fun h1 h2 => ?_⟩
  · unfold calculateTimeInRange
    simpa using calcTime_foldl rangeStart rangeEnd entries 0
  · unfold calculateTimeInRange
    rw [List.foldl_cons]
    dsimp only
    rw [if_neg (by simp; omega)]
    rw [List.foldl_nil]
    omega

/-- C2 witness: the containment example at the concrete range `[0,100]`. -/
theorem calculateTimeInRange_eq_sumOverlapSpec_witness :
    (0 : Int) ≤ 10 ∧ (20 : Int) ≤ 100 ∧
    calculateTimeInRange [⟨10, some 20⟩] 0 100 = 10 :=
  ⟨by decide, by decide,
    (calculateTimeInRange_eq_sumOverlapSpec [] 0 100).2.2.2 (by decide) (by decide)⟩

/-! ## C3: nonnegativity of the aggregated total -/

/-- C3 (amended): each accumulated term — and hence the total, at both
the entry level and the activities level — is nonnegative provided the
range is proper (`rangeStart ≤ rangeEnd`) and every closed entry
satisfies the `end >= start` data-model invariant.  The original claim,
which included entries with `end < start`, fails: such an entry passes
the skip test yet contributes a negative clipped term (see the
counterexample). -/
theorem calculateTimeInRange_nonneg (activities : Activities)
    (entries : List TimeEntry) (activityIds : List String)
    (rangeStart rangeEnd : Int)
    (hr : rangeStart ≤ rangeEnd)
    (hwf : entries.all entryWF = true)
    (hwfa : activities.all (fun p => p.2.entries.all entryWF) = true) :
    0 ≤ calculateTimeInRange entries rangeStart rangeEnd ∧
    0 ≤ calculateTimeInRangeActs activities activityIds rangeStart rangeEnd := by
  constructor
  · unfold calculateTimeInRange
    exact calcTime_foldl_acc_le rangeStart rangeEnd hr entries hwf 0
  · unfold calculateTimeInRangeActs
    exact calcTimeActs_foldl_acc_le activities rangeStart rangeEnd hr hwfa _ 0

/-- C3 witness: nonnegativity at a concrete well-formed snapshot. -/
theorem calculateTimeInRange_nonneg_witness :
    (0 : Int) ≤ 100 ∧
    ([⟨10, some 20⟩] : List TimeEntry).all entryWF = true ∧
    (oneTimeActs ⟨10, some 20⟩).all (fun p => p.2.entries.all entryWF) = true ∧
    0 ≤ calculateTimeInRange [⟨10, some 20⟩] 0 100 ∧
    0 ≤ calculateTimeInRangeActs (oneTimeActs ⟨10, some 20⟩) [] 0 100 :=
  ⟨by decide, by decide, by decide,
    calculateTimeInRange_nonneg (oneTimeActs ⟨10, some 20⟩) [⟨10, some 20⟩] [] 0 100
      (by decide) (by decide) (by decide)⟩

/-- C3 counterexample: the single entry `{start:20, end:10}` (`end <
start`, producible through manual edits) passes the skip test for the
range `[0,100]` and both aggregators return `-10 < 0`, refuting the
unqualified nonnegativity claim. -/
theorem calculateTimeInRange_neg_cex :
    calculateTimeInRange [⟨20, some 10⟩] 0 100 = -10 ∧
    calculateTimeInRangeActs (oneTimeActs ⟨20, some 10⟩) [] 0 100 = -10 := by
  decide

/-! ## Percentage computation lemmas -/

/-- For a positive target, the integer formula of `jsRound100Div` is
exactly `⌊current/target · 100 + 1/2⌋`, the round-half-up of the exact
percentage ratio. -/
theorem jsRound100Div_eq_floor (c t : Int) (ht : 0 < t) :
    jsRound100Div c t = .fin ⌊(c : ℚ) / t * 100 + 1/2⌋ := by
  unfold jsRound100Div
  rw [if_neg (by omega)]
  congr 1
  rw [Int.fdiv_eq_ediv _ (by omega)]
  have h2t : ((2 * t).toNat : Int) = 2 * t := Int.toNat_of_nonneg (by omega)
  have key := Rat.floor_intCast_div_natCast (200 * c + t) (2 * t).toNat
  rw [h2t] at key
  rw [← key]
  congr 1
  have hd : (((2 * t).toNat : ℕ) : ℚ) = 2 * (t : ℚ) := by exact_mod_cast h2t
  have htQ : (t : ℚ) ≠ 0 := by
    exact_mod_cast (by omega : t ≠ 0)
  rw [hd]
  push_cast
  field_simp
  ring

/-- For a positive target the full percentage expression is a finite
integer: the upper clamp applied to the rounded ratio. -/
theorem progressPct_fin_pos (c t : Int) (ht : 0 < t) :
    progressPct c t = .fin (min 100 ⌊(c : ℚ) / t * 100 + 1/2⌋) := by
  unfold progressPct
  rw [jsRound100Div_eq_floor c t ht]
  rfl

/-- With a positive target and a nonnegative current value, the clamped
rounded percentage lies in `[0, 100]`. -/
theorem progressPct_bounds (c t : Int) (ht : 0 < t) (hc : 0 ≤ c) :
    0 ≤ min 100 ⌊(c : ℚ) / t * 100 + 1/2⌋ ∧
    min 100 ⌊(c : ℚ) / t * 100 + 1/2⌋ ≤ 100 := by
  constructor
  · have htQ : (0 : ℚ) < (t : ℚ) := by exact_mod_cast ht
    have hcQ : (0 : ℚ) ≤ (c : ℚ) := by exact_mod_cast hc
    have hdiv : (0 : ℚ) ≤ (c : ℚ) / t := div_nonneg hcQ htQ.le
    have harg : (0 : ℚ) ≤ (c : ℚ) / t * 100 + 1/2 := by nlinarith
    have hfl : (0 : Int) ≤ ⌊(c : ℚ) / t * 100 + 1/2⌋ :=
      Int.le_floor.mpr (by simpa using harg)
    omega
  · exact min_le_left _ _

/-- The percentage expression is `NaN` exactly on `0/0`, is `-∞` exactly
for a negative current against a zero target, and is never `+∞`
(`Math.min(100, +∞) = 100`), whatever the inputs. -/
theorem progressPct_cases (c t : Int) :
    (progressPct c t = .nan ↔ (c = 0 ∧ t = 0)) ∧
    progressPct c t ≠ .posInf ∧
    (progressPct c t = .negInf ↔ (c < 0 ∧ t = 0)) := by
  unfold progressPct jsRound100Div
  by_cases ht0 : t = 0
  · subst ht0
    rw [if_pos rfl]
    by_cases hc0 : c = 0
    · subst hc0; simp [jsMin100]
    · rw [if_neg hc0]
      by_cases hcp : 0 < c
      · rw [if_pos hcp]; simp [jsMin100]; omega
      · rw [if_neg hcp]; simp [jsMin100]; omega
  · rw [if_neg ht0]
    simp [jsMin100, ht0]

/-! ## C1: achieved test and percentage of a TIME goal -/

/-- C1 (amended): for every TIME goal evaluation with a positive target,
`achieved` is true exactly when `current >= target` and
`progressPercentage` equals `min(100, round(current/target · 100))`
(round half-up); the result lies in `[0, 100]` whenever `current ≥ 0` —
the code applies no lower clamp, so a current made negative by corrupted
entries yields a negative percentage (see the counterexample).  The
spec's worked examples hold: target 60 with 60 tracked minutes gives
`achieved` and 100%, with 59 minutes gives not-achieved and 98%, and 150
minutes against target 100 gives `achieved` with the percentage capped
at 100. -/
theorem evaluateTimeGoal_correct (tz now : Int) (goal : Goal) (activities : Activities)
    (ht : 0 < goal.config.targetMinutes) :
    ((evaluateTimeGoal tz now goal activities).achieved = true ↔
        (evaluateTimeGoal tz now goal activities).target
          ≤ (evaluateTimeGoal tz now goal activities).current) ∧
    (evaluateTimeGoal tz now goal activities).progressPercentage
        = .fin (min 100 ⌊((evaluateTimeGoal tz now goal activities).current : ℚ)
            / ((evaluateTimeGoal tz now goal activities).target : ℚ) * 100 + 1/2⌋) ∧
    (0 ≤ (evaluateTimeGoal tz now goal activities).current →
      ∃ p : Int, (evaluateTimeGoal tz now goal activities).progressPercentage = .fin p ∧
        0 ≤ p ∧ p ≤ 100) ∧
    (evaluateTimeGoal 0 0 (timeGoalFix 60) (oneTimeActs ⟨0, some 3600000⟩)).achieved = true ∧
    (evaluateTimeGoal 0 0 (timeGoalFix 60)
        (oneTimeActs ⟨0, some 3600000⟩)).progressPercentage = .fin 100 ∧
    (evaluateTimeGoal 0 0 (timeGoalFix 60) (oneTimeActs ⟨0, some 3540000⟩)).achieved = false ∧
    (evaluateTimeGoal 0 0 (timeGoalFix 60)
        (oneTimeActs ⟨0, some 3540000⟩)).progressPercentage = .fin 98 ∧
    (evaluateTimeGoal 0 0 (timeGoalFix 100) (oneTimeActs ⟨0, some 9000000⟩)).achieved = true ∧
    (evaluateTimeGoal 0 0 (timeGoalFix 100)
        (oneTimeActs ⟨0, some 9000000⟩)).progressPercentage = .fin 100 := by
  refine ⟨?_, ?_, ?_, by decide, by decide, by decide, by decide, by decide, by decide⟩
  · show (decide _ = true ↔ _)
    exact decide_eq_true_iff
  · show progressPct _ _ = _
    exact progressPct_fin_pos _ _ ht
  · intro hc
    refine ⟨min 100 ⌊((evaluateTimeGoal tz now goal activities).current : ℚ)
      / ((evaluateTimeGoal tz now goal activities).target : ℚ) * 100 + 1/2⌋,
      ?_, ?_, ?_⟩
    · show progressPct _ _ = _
      exact progressPct_fin_pos _ _ ht
    · exact (progressPct_bounds _ _ ht hc).1
    · exact (progressPct_bounds _ _ ht hc).2

/-- C1 witness: the boundary example instantiated (target 60, 60 tracked
minutes, today's range at epoch, UTC). -/
theorem evaluateTimeGoal_correct_witness :
    0 < (timeGoalFix 60).config.targetMinutes ∧
    ((evaluateTimeGoal 0 0 (timeGoalFix 60) (oneTimeActs ⟨0, some 3600000⟩)).achieved = true ↔
      (evaluateTimeGoal 0 0 (timeGoalFix 60) (oneTimeActs ⟨0, some 3600000⟩)).target
        ≤ (evaluateTimeGoal 0 0 (timeGoalFix 60) (oneTimeActs ⟨0, some 3600000⟩)).current) :=
  ⟨by decide,
    (evaluateTimeGoal_correct 0 0 (timeGoalFix 60) (oneTimeActs ⟨0, some 3600000⟩)
      (by decide)).1⟩

/-- C1 counterexample: the percentage is not clamped below.  A corrupted
entry `{start:600000, end:0}` (end < start) puts −10 minutes into
today's range, and the TIME goal evaluation against target 60 reports
`progressPercentage = −17`, outside `[0, 100]`. -/
theorem evaluateTimeGoal_clamp_cex :
    (evaluateTimeGoal 0 0 (timeGoalFix 60)
        (oneTimeActs ⟨600000, some 0⟩)).progressPercentage = .fin (-17) ∧
    (-17 : Int) < 0 := by
  decide

/-! ## C7: behaviour on non-positive targets -/

/-- For a current value that is a count (a `Nat` cast, as the COUNT and
STREAK evaluators produce), the percentage expression can be `NaN` (only
on `0/0`) but neither infinity. -/
theorem progressPct_natCast (n : Nat) (t : Int) :
    (progressPct (n : Int) t = .nan ↔ ((n : Int) = 0 ∧ t = 0)) ∧
    progressPct (n : Int) t ≠ .posInf ∧
    progressPct (n : Int) t ≠ .negInf := by
  refine ⟨(progressPct_cases _ _).1, (progressPct_cases _ _).2.1, fun hne => ?_⟩
  have h := (progressPct_cases ((n : Nat) : Int) t).2.2.mp hne
  omega

/-- C7 (amended): none of the three evaluators guards its target against
`<= 0`.  For each goal evaluator run with a non-positive target of its
kind, `progressPercentage` is `NaN` exactly when `current = 0` and
`target = 0` (the `0/0` case, which the code does produce in all three —
see the counterexample) and is never `+Infinity` (a positive current
against target 0 gives `Math.min(100, +∞) = 100`; a negative target
gives a finite value).  For COUNT and STREAK goals the current value is
a count, hence nonnegative, so `-Infinity` is impossible as well; for
TIME goals `-Infinity` occurs exactly when corrupted entries make
`current < 0` while `target = 0`. -/
theorem evaluateGoal_target_nonpos (tz now : Int) (goal : Goal) (activities : Activities) :
    (goal.config.targetMinutes ≤ 0 →
      (((evaluateTimeGoal tz now goal activities).progressPercentage = .nan ↔
        ((evaluateTimeGoal tz now goal activities).current = 0 ∧
          (evaluateTimeGoal tz now goal activities).target = 0)) ∧
      (evaluateTimeGoal tz now goal activities).progressPercentage ≠ .posInf ∧
      ((evaluateTimeGoal tz now goal activities).progressPercentage = .negInf ↔
        ((evaluateTimeGoal tz now goal activities).current < 0 ∧
          (evaluateTimeGoal tz now goal activities).target = 0)))) ∧
    (goal.config.targetCount ≤ 0 →
      (((evaluateCountGoal tz now goal activities).progressPercentage = .nan ↔
        ((evaluateCountGoal tz now goal activities).current = 0 ∧
          (evaluateCountGoal tz now goal activities).target = 0)) ∧
      (evaluateCountGoal tz now goal activities).progressPercentage ≠ .posInf ∧
      (evaluateCountGoal tz now goal activities).progressPercentage ≠ .negInf)) ∧
    (goal.config.targetDays ≤ 0 →
      (((evaluateStreakGoal tz now goal activities).progressPercentage = .nan ↔
        ((evaluateStreakGoal tz now goal activities).current = 0 ∧
          (evaluateStreakGoal tz now goal activities).target = 0)) ∧
      (evaluateStreakGoal tz now goal activities).progressPercentage ≠ .posInf ∧
      (evaluateStreakGoal tz now goal activities).progressPercentage ≠ .negInf)) :=
  ⟨fun _ => progressPct_cases _ _,
   fun _ => progressPct_natCast _ _,
   fun _ => progressPct_natCast _ _⟩

/-- C7 witness: all three targets 0 on a goal over an empty snapshot. -/
theorem evaluateGoal_target_nonpos_witness :
    ((timeGoalFix 0).config.targetMinutes ≤ 0 ∧
      (evaluateTimeGoal 0 0 (timeGoalFix 0) []).progressPercentage ≠ .posInf) ∧
    ((timeGoalFix 0).config.targetCount ≤ 0 ∧
      (evaluateCountGoal 0 0 (timeGoalFix 0) []).progressPercentage ≠ .posInf) ∧
    ((timeGoalFix 0).config.targetDays ≤ 0 ∧
      (evaluateStreakGoal 0 0 (timeGoalFix 0) []).progressPercentage ≠ .posInf) :=
  ⟨⟨by decide, ((evaluateGoal_target_nonpos 0 0 (timeGoalFix 0) []).1 (by decide)).2.1⟩,
   ⟨by decide, ((evaluateGoal_target_nonpos 0 0 (timeGoalFix 0) []).2.1 (by decide)).2.1⟩,
   ⟨by decide, ((evaluateGoal_target_nonpos 0 0 (timeGoalFix 0) []).2.2 (by decide)).2.1⟩⟩

/-- C7 counterexample: with a zero target and no matching data each
evaluator has `current = 0` and computes `Math.round((0/0) * 100) =
NaN`, which `Math.min(100, ·)` propagates: `progressPercentage` is `NaN`
in the TIME, COUNT and STREAK evaluators alike, refuting the never-NaN
claim. -/
theorem evaluateGoal_nan_cex :
    (evaluateTimeGoal 0 0 (timeGoalFix 0) []).progressPercentage = .nan ∧
    (evaluateCountGoal 0 0 (timeGoalFix 0) []).progressPercentage = .nan ∧
    (evaluateStreakGoal 0 0 (timeGoalFix 0) []).progressPercentage = .nan := by
  refine ⟨by decide, by decide, by decide⟩

/-! ## C10: minutes are floored before the comparison -/

/-- C10: the `current` of a TIME goal evaluation is the floor of the
summed overlap milliseconds divided by 60000, so a tracked total of
`targetMinutes·60000 − 1` ms falls one minute short and `achieved` is
false. -/
theorem evaluateTimeGoal_floor_minutes (tz now : Int) (goal : Goal) (activities : Activities) :
    (evaluateTimeGoal tz now goal activities).current
      = ⌊(calculateTimeInRangeActs activities
            (match goal.config.activityId with | some id => [id] | none => [])
            (getPeriodRange tz goal.config.period now).1
            (getPeriodRange tz goal.config.period now).2 : ℚ) / 60000⌋ ∧
    (calculateTimeInRangeActs activities
        (match goal.config.activityId with | some id => [id] | none => [])
        (getPeriodRange tz goal.config.period now).1
        (getPeriodRange tz goal.config.period now).2
      = goal.config.targetMinutes * 60000 - 1 →
      (evaluateTimeGoal tz now goal activities).achieved = false) := by
  constructor
  · show calculateTimeInRangeActs _ _ _ _ / msPerMinute = _
    rw [(by norm_num : ((60000 : ℚ)) = ((60000 : ℕ) : ℚ)),
      Rat.floor_intCast_div_natCast]
    norm_num [msPerMinute]
  · intro h
    show decide _ = false
    rw [decide_eq_false_iff_not]
    show ¬(calculateTimeInRangeActs _ _ _ _ / msPerMinute ≥ _)
    rw [h]
    simp only [msPerMinute]
    omega

/-- C10 witness: target 1 minute against 59999 tracked milliseconds. -/
theorem evaluateTimeGoal_floor_minutes_witness :
    calculateTimeInRangeActs (oneTimeActs ⟨0, some 59999⟩)
        (match (timeGoalFix 1).config.activityId with | some id => [id] | none => [])
        (getPeriodRange 0 (timeGoalFix 1).config.period 0).1
        (getPeriodRange 0 (timeGoalFix 1).config.period 0).2
      = (timeGoalFix 1).config.targetMinutes * 60000 - 1 ∧
    (evaluateTimeGoal 0 0 (timeGoalFix 1) (oneTimeActs ⟨0, some 59999⟩)).achieved = false :=
  ⟨by decide,
    (evaluateTimeGoal_floor_minutes 0 0 (timeGoalFix 1) (oneTimeActs ⟨0, some 59999⟩)).2
      (by decide)⟩

/-! ## C9: unknown goal types fall back to the neutral result -/

/-- C9: for every goal whose type is none of `"time"`, `"count"`,
`"streak"`, and every activities snapshot, `evaluateGoal` returns exactly
the neutral record `{achieved: false, current: 0, target: 0,
progressPercentage: 0, unit: "unknown"}`; the model is a total function,
so no branch can raise. -/
theorem evaluateGoal_unknown (tz now : Int) (goal : Goal) (activities : Activities)
    (h1 : goal.type ≠ "time") (h2 : goal.type ≠ "count") (h3 : goal.type ≠ "streak") :
    evaluateGoal tz now goal activities =
      ⟨false, 0, 0, .fin 0, "unknown"⟩ := by
  unfold evaluateGoal
  rw [if_neg h1, if_neg h2, if_neg h3]

/-- C9 witness: a goal with `type = "bogus"`. -/
theorem evaluateGoal_unknown_witness :
    (("bogus" : String) ≠ "time" ∧ ("bogus" : String) ≠ "count" ∧
      ("bogus" : String) ≠ "streak") ∧
    evaluateGoal 0 0 ⟨"bogus", ⟨none, 0, 0, 0, "day"⟩⟩ [] =
      ⟨false, 0, 0, .fin 0, "unknown"⟩ :=
  ⟨⟨by decide, by decide, by decide⟩,
    evaluateGoal_unknown 0 0 ⟨"bogus", ⟨none, 0, 0, 0, "day"⟩⟩ []
      (by decide) (by decide) (by decide)⟩

/-! ## C8: week boundaries -/

/-- C8: for every reference instant, `getWeekStart` is the local
midnight of a Monday lying at most six days before the reference's local
day — the Monday of the week containing the reference, with Sunday
belonging to the week begun the previous Monday: a Sunday reference
maps six days back, any other day maps by `dayOfMonth - dayOfWeek + 1`
(equivalently, `1 - dayOfWeek` days, a Wednesday mapping two days
back). -/
theorem getWeekStart_monday (tz t : Int) :
    getWeekStart tz t = localMidnight tz (localDayOf tz (getWeekStart tz t)) ∧
    dayOfWeek (localDayOf tz (getWeekStart tz t)) = 1 ∧
    localDayOf tz (getWeekStart tz t) ≤ localDayOf tz t ∧
    localDayOf tz t - localDayOf tz (getWeekStart tz t) ≤ 6 ∧
    (dayOfWeek (localDayOf tz t) = 0 →
      localDayOf tz (getWeekStart tz t) = localDayOf tz t - 6) ∧
    (dayOfWeek (localDayOf tz t) ≠ 0 →
      localDayOf tz (getWeekStart tz t)
        = localDayOf tz t - dayOfWeek (localDayOf tz t) + 1) := by
  have hms : msPerDay = 86400000 := rfl
  have hcancel : ∀ m : Int, localDayOf tz (localMidnight tz m) = m := by
    intro m
    unfold localDayOf localMidnight
    rw [hms]
    omega
  unfold getWeekStart
  dsimp only
  set n := localDayOf tz t with hn
  have hdow : dayOfWeek n = (n + 4) % 7 := rfl
  by_cases h0 : dayOfWeek n = 0
  · rw [if_pos h0]
    rw [hcancel]
    refine ⟨rfl, ?_, by omega, by omega, fun _ => rfl, fun hc => absurd h0 hc⟩
    unfold dayOfWeek at h0 ⊢
    omega
  · rw [if_neg h0]
    rw [hcancel]
    have hb : 0 ≤ dayOfWeek n ∧ dayOfWeek n < 7 := by
      unfold dayOfWeek
      constructor
      · exact Int.emod_nonneg _ (by norm_num)
      · exact Int.emod_lt_of_pos _ (by norm_num)
    refine ⟨rfl, ?_, by omega, by omega, fun hc => absurd hc h0, fun _ => rfl⟩
    unfold dayOfWeek at h0 hb ⊢
    omega

/-- C8 witness: 1970-01-04 was a Sunday (local day 3, UTC timezone); its
week start is local day −3, the Monday 1969-12-29 six days earlier. -/
theorem getWeekStart_monday_witness :
    dayOfWeek (localDayOf 0 (3 * 86400000)) = 0 ∧
    localDayOf 0 (getWeekStart 0 (3 * 86400000)) = localDayOf 0 (3 * 86400000) - 6 ∧
    dayOfWeek (localDayOf 0 (getWeekStart 0 (3 * 86400000))) = 1 :=
  ⟨by decide,
    (getWeekStart_monday 0 (3 * 86400000)).2.2.2.2.1 (by decide),
    (getWeekStart_monday 0 (3 * 86400000)).2.1⟩

/-! ## Streak loop lemmas -/

/-- One unfolding of the backward walk. -/
theorem streakLoop_succ (q : Nat → Bool) (fuel s o : Nat) :
    streakLoop q (fuel + 1) s o =
      if q o then
        if o + 1 > 365 then some (s + 1) else streakLoop q fuel (s + 1) (o + 1)
      else if s = 0 then
        if q (o + 1) then streakLoop q fuel 1 (o + 2) else some s
      else some s := rfl

/-- One unfolding of the capped run length. -/
theorem runLenOff_succ (q : Nat → Bool) (start bound : Nat) :
    runLenOff q start (bound + 1) =
      if q start then runLenOff q (start + 1) bound + 1 else 0 := rfl

/-- Beyond the 365-day horizon with a started streak, the walk returns
within one step (either the bound check or the break fires). -/
theorem streakLoop_isSome_high (q : Nat → Bool) (fuel s o : Nat)
    (hf : 1 ≤ fuel) (ho : 365 ≤ o) (hs : s ≠ 0) :
    (streakLoop q fuel s o).isSome = true := by
  match fuel, hf with
  | f + 1, _ =>
    rw [streakLoop_succ]
    by_cases hq : q o = true
    · rw [if_pos hq, if_pos (by omega)]; rfl
    · rw [if_neg hq, if_neg hs]; rfl

/-- The walk always returns with fuel `2 + (365 - offset)`: the bound
check caps the number of iterations whatever the data. -/
theorem streakLoop_isSome (q : Nat → Bool) :
    ∀ fuel s o : Nat, 2 + (365 - o) ≤ fuel →
      (streakLoop q fuel s o).isSome = true := by
  intro fuel
  induction fuel with
  | zero => intro s o h; omega
  | succ f ih =>
    intro s o h
    rw [streakLoop_succ]
    by_cases hq : q o = true
    · rw [if_pos hq]
      by_cases hb : o + 1 > 365
      · rw [if_pos hb]; rfl
      · rw [if_neg hb]
        exact ih (s + 1) (o + 1) (by omega)
    · rw [if_neg hq]
      by_cases hs : s = 0
      · rw [if_pos hs]
        by_cases hq1 : q (o + 1) = true
        · rw [if_pos hq1]
          by_cases ho : o ≤ 363
          · exact ih 1 (o + 2) (by omega)
          · exact streakLoop_isSome_high q f 1 (o + 2) (by omega) (by omega) (by omega)
        · rw [if_neg hq1]; rfl
      · rw [if_neg hs]; rfl

/-- On data where every day qualifies, the walk stops through the
365-day bound check, not through fuel exhaustion: with any sufficient
fuel it returns exactly `s + (366 - o)` counted days. -/
theorem streakLoop_allTrue :
    ∀ fuel s o : Nat, o ≤ 365 → 367 - o ≤ fuel →
      streakLoop (fun _ => true) fuel s o = some (s + (366 - o)) := by
  intro fuel
  induction fuel with
  | zero => intro s o h1 h2; omega
  | succ f ih =>
    intro s o h1 h2
    rw [streakLoop_succ, if_pos rfl]
    by_cases hb : o + 1 > 365
    · rw [if_pos hb]
      congr 1
      omega
    · rw [if_neg hb, ih (s + 1) (o + 1) (by omega) (by omega)]
      congr 1
      omega

/-- After a started streak (invariantly `1 ≤ s`, `2 ≤ o ≤ 365`), the walk
returns the accumulated count plus the qualifying run from the current
offset, capped at day 365. -/
theorem streakLoop_grace_run (q : Nat → Bool) :
    ∀ fuel s o : Nat, 1 ≤ s → 2 ≤ o → o ≤ 365 → 367 - o ≤ fuel →
      streakLoop q fuel s o = some (s + runLenOff q o (366 - o)) := by
  intro fuel
  induction fuel with
  | zero => intro s o h1 h2 h3 h4; omega
  | succ f ih =>
    intro s o h1 h2 h3 h4
    rw [streakLoop_succ]
    have h366 : 366 - o = (365 - o) + 1 := by omega
    by_cases hq : q o = true
    · rw [if_pos hq]
      by_cases hb : o + 1 > 365
      · rw [if_pos hb]
        have ho : o = 365 := by omega
        subst ho
        rw [h366, runLenOff_succ, if_pos hq]
        congr 1
      · rw [if_neg hb, ih (s + 1) (o + 1) (by omega) (by omega) (by omega) (by omega)]
        rw [h366, runLenOff_succ, if_pos hq]
        congr 1
        have he : 365 - o = 366 - (o + 1) := by omega
        rw [← he]
        omega
    · rw [if_neg hq, if_neg (by omega : ¬(s = 0))]
      rw [h366, runLenOff_succ, if_neg hq]
      congr 1

/-! ## C5: bounded lookback guarantees termination -/

/-- C5: the backward walk of `calculateStreak` terminates on every
input — the fuel `368` driving the model's loop is never exhausted,
because the `daysDiff > 365` bound check breaks first — and on malformed
perpetual data where every day qualifies it stops through that bound
check with 366 counted days, independent of any extra fuel. -/
theorem calculateStreak_terminates (tz today : Int) (activities : Activities)
    (activityIds : List String) (streakType : String) :
    (streakLoop (fun off => dayHasActivity tz activities activityIds
        (getISODate (today - (off : Int) * msPerDay)) streakType) 368 0 0).isSome = true ∧
    ∀ extra : Nat, streakLoop (fun _ => true) (368 + extra) 0 0 = some 366 := by
  constructor
  · exact streakLoop_isSome _ 368 0 0 (by omega)
  · intro extra
    have h := streakLoop_allTrue (368 + extra) 0 0 (by omega) (by omega)
    simpa using h

/-! ## C4: the grace rule -/

/-- C4 (amended): for a CHECK-type walk where today does not qualify,
if yesterday qualifies then `calculateStreak` returns the length of the
maximal run of consecutive qualifying days ending at yesterday *capped
at 365 days* (`runLenOff … 1 365`; the uncapped original claim fails on
a 366-day run, see the counterexample), and if yesterday does not
qualify either it returns 0. -/
theorem calculateStreak_grace (tz today : Int) (activities : Activities)
    (activityIds : List String)
    (h0 : dayHasActivity tz activities activityIds (getISODate today) "check" = false) :
    (dayHasActivity tz activities activityIds
        (getISODate (today - msPerDay)) "check" = true →
      calculateStreak tz today activities activityIds "check"
        = runLenOff (fun off => dayHasActivity tz activities activityIds
            (getISODate (today - (off : Int) * msPerDay)) "check") 1 365) ∧
    (dayHasActivity tz activities activityIds
        (getISODate (today - msPerDay)) "check" = false →
      calculateStreak tz today activities activityIds "check" = 0) := by
  set q := fun off : Nat => dayHasActivity tz activities activityIds
      (getISODate (today - (off : Int) * msPerDay)) "check" with hq
  have hq0 : q 0 = false := by
    rw [hq]
    dsimp only
    rw [show today - ((0 : Nat) : Int) * msPerDay = today by norm_num]
    exact h0
  have hq1eq : q 1 = dayHasActivity tz activities activityIds
      (getISODate (today - msPerDay)) "check" := by
    rw [hq]
    dsimp only
    rw [show today - ((1 : Nat) : Int) * msPerDay = today - msPerDay by norm_num]
  constructor
  · intro h1
    have hq1 : q 1 = true := by rw [hq1eq]; exact h1
    unfold calculateStreak
    rw [← hq]
    rw [show (368 : Nat) = 367 + 1 from rfl, streakLoop_succ]
    rw [if_neg (by simp [hq0]), if_pos rfl, if_pos hq1]
    rw [streakLoop_grace_run q 367 1 2 (by omega) (by omega) (by omega) (by omega)]
    rw [Option.getD_some]
    conv_rhs => rw [show (365 : Nat) = 364 + 1 from rfl, runLenOff_succ, if_pos hq1]
    rw [show (366 : Nat) - 2 = 364 from rfl]
    norm_num
    omega
  · intro h1
    have hq1 : q 1 = false := by rw [hq1eq]; exact h1
    unfold calculateStreak
    rw [← hq]
    rw [show (368 : Nat) = 367 + 1 from rfl, streakLoop_succ]
    rw [if_neg (by simp [hq0]), if_pos rfl, if_neg (by simp [hq1])]
    rfl

/-- C4 witness: a single check on day −1 only, today = day 0, UTC: the
grace rule yields streak 1. -/
theorem calculateStreak_grace_witness :
    dayHasActivity 0 [("a", mkCheckActivity (fun d => d == -1))] []
        (getISODate 0) "check" = false ∧
    calculateStreak 0 0 [("a", mkCheckActivity (fun d => d == -1))] [] "check" = 1 := by
  refine ⟨by decide, ?_⟩
  have h := (calculateStreak_grace 0 0 [("a", mkCheckActivity (fun d => d == -1))] []
    (by decide)).1 (by decide)
  rw [h]
  decide

set_option maxRecDepth 8000 in
/-- C4 counterexample: checks on all of days −1 … −366 (a maximal run of
366 qualifying days ending at yesterday, witnessed by `runLenOff … 1 366
= 366`) with today unchecked: the walk stops at the 365-day bound and
returns 365, not the maximal run length 366. -/
theorem calculateStreak_grace_cex :
    calculateStreak 0 0 checkActs366 [] "check" = 365 ∧
    runLenOff (fun off => dayHasActivity 0 checkActs366 []
        (getISODate (0 - (off : Int) * msPerDay)) "check") 1 366 = 366 := by
  constructor
  · decide
  · decide

/-! ## C6: date-keying of the check aggregator -/

/-- One unfolding of the day-by-day check loop. -/
theorem countChecksLoop_succ (checks : Int → Bool) (endDate : Int) (fuel : Nat) (current : Int) :
    countChecksLoop checks endDate (fuel + 1) current =
      if current ≤ endDate then
        ⟨(if checks (getISODate current)
            then (countChecksLoop checks endDate fuel (current + msPerDay)).checked + 1
            else (countChecksLoop checks endDate fuel (current + msPerDay)).checked),
         (countChecksLoop checks endDate fuel (current + msPerDay)).total + 1⟩
      else ⟨0, 0⟩ := rfl

/-- Closed form of the day loop: with the fuel matching the `while`
condition it visits exactly the instants `current + i·day` and counts
the checks-map hits under their UTC dates. -/
theorem countChecksLoop_spec (checks : Int → Bool) (endDate : Int) :
    ∀ (fuel : Nat) (current : Int),
      ((endDate - current) / msPerDay + 1).toNat = fuel →
      countChecksLoop checks endDate fuel current =
        ⟨(List.range fuel).countP
            (fun i : Nat => checks (getISODate (current + (i : Int) * msPerDay))),
          fuel⟩ := by
  intro fuel
  induction fuel with
  | zero =>
    intro current h
    simp [countChecksLoop]
  | succ f ih =>
    intro current h
    have hle : current ≤ endDate := by
      simp only [msPerDay] at h
      omega
    rw [countChecksLoop_succ, if_pos hle]
    have h2 : ((endDate - (current + msPerDay)) / msPerDay + 1).toNat = f := by
      simp only [msPerDay] at h ⊢
      omega
    rw [ih (current + msPerDay) h2]
    have h0 : checks (getISODate (current + ((0 : ℕ) : Int) * msPerDay))
        = checks (getISODate current) := by
      norm_num
    have hfun : ((fun i : Nat => checks (getISODate (current + (i : Int) * msPerDay))) ∘
          (· + 1))
        = (fun i : Nat =>
            checks (getISODate ((current + msPerDay) + (i : Int) * msPerDay))) := by
      funext i
      simp only [Function.comp]
      congr 2
      push_cast
      ring
    rw [List.range_succ_eq_map, List.countP_cons, List.countP_map, hfun, h0]
    simp only [CheckCount.mk.injEq]
    refine ⟨?_, trivial⟩
    by_cases hc : checks (getISODate current) = true
    · rw [if_pos hc, if_pos hc]
    · rw [if_neg hc, if_neg hc]
      omega

/-- C6 (amended): `countChecksInRange` iterates day-by-day from
`startDate` to `endDate` inclusive and, for each visited day, looks the
checks map up under the *UTC* calendar date string of that day's instant
(`toISOString`, the same stringification the `toggle-check` writer
uses) — not under the local calendar date the claim names; the
counterexample below separates the two. -/
theorem countChecksInRange_utc (checks : Int → Bool) (startDate endDate : Int) :
    countChecksInRange checks startDate endDate
      = countChecksSpecKeyed getISODate checks startDate endDate := by
  unfold countChecksInRange countChecksSpecKeyed
  exact countChecksLoop_spec checks endDate _ startDate rfl

/-- C6 counterexample: in a UTC+1 zone (`tz = 3600000`) with `startDate
= endDate` the local midnight of local day 0 (instant −3600000) and a
check recorded under day 0: the code looks up UTC day −1 and counts 0
checks, while the claimed local-calendar-date lookup counts 1. -/
theorem countChecksInRange_local_cex :
    countChecksInRange (fun d => d == 0) (-3600000) (-3600000) = ⟨0, 1⟩ ∧
    countChecksSpecKeyed (localDayOf 3600000) (fun d => d == 0)
        (-3600000) (-3600000) = ⟨1, 1⟩ := by
  constructor
  · decide
  · decide

end TimeTracker
